import Mathlib

/-!
Shallow embedding of `newspaperbulk.py`: a bulk URL fetcher that drains a
fixed work queue with a pool of worker threads, classifies per-URL failures,
and appends rows to a clean sink and an error sink.

The network, the `newspaper` article extractor and the date parser are
external collaborators; they are modelled as functions supplied in a `WebEnv`
record.  Everything else (the retry adapter mounted by `create_session`, the
body of `get_text_from_url`, the worker loop `target_task`, the coordinator
`main`, and `clean_up_output`) is translated from the source.
-/

/-- Exception classes caught by `get_text_from_url` (lines 114 and 122 of the
source import them from `requests.exceptions`). -/
inductive ExcKind
  | connectionError
  | invalidSchema
  | missingSchema
  | tooManyRedirects
  | retryError
deriving DecidableEq, Repr

/-- `e.__class__.__name__`, the string written to the error sink. -/
def ExcKind.className : ExcKind → String
  | .connectionError  => "ConnectionError"
  | .invalidSchema    => "InvalidSchema"
  | .missingSchema    => "MissingSchema"
  | .tooManyRedirects => "TooManyRedirects"
  | .retryError       => "RetryError"

/-- Outcome of one low-level fetch attempt for a given URL.  `response s`
means the server answered with HTTP status `s`; the other constructors are
the failure modes `requests` can raise for a single attempt:
`connectionError` is a transport failure (retry-eligible), while
`invalidSchema`, `missingSchema` and `tooManyRedirects` are raised outside
the retry adapter and are always terminal. -/
inductive AttemptResult
  | response (status : Nat)
  | connectionError
  | invalidSchema
  | missingSchema
  | tooManyRedirects
deriving DecidableEq, Repr

/-- When the first attempt already raises a terminal URL error, this gives
the exception class that escapes `session.get`. -/
def AttemptResult.terminalExc : AttemptResult → Option ExcKind
  | .invalidSchema    => some .invalidSchema
  | .missingSchema    => some .missingSchema
  | .tooManyRedirects => some .tooManyRedirects
  | _ => none

/-- The retry configuration mounted on the session: `urllib3.util.retry.Retry`
with `total = maxRetries`, `backoff_factor = backoffFactor` and the fixed
`status_forcelist`. -/
structure RetryPolicy where
  maxRetries : Nat
  backoffFactor : ℚ
  statusForcelist : List Nat
deriving DecidableEq, Repr

/-- `create_session(max_retries=0, backoff_factor=0)`: mounts an adapter with
`Retry(total=max_retries, backoff_factor=backoff_factor,
status_forcelist=[500, 502, 503, 504])`. -/
def create_session (max_retries : Nat := 0) (backoff_factor : ℚ := 0) : RetryPolicy :=
  { maxRetries := max_retries
    backoffFactor := backoff_factor
    statusForcelist := [500, 502, 503, 504] }

/-- What `session.get` finally does: return a response or raise. -/
inductive GetResult
  | resp (status : Nat)
  | exn (e : ExcKind)
deriving DecidableEq, Repr

/-- Observable trace of one `session.get` call: its result, the number of
low-level attempts actually made, and the total backoff time slept. -/
structure GetTrace where
  result : GetResult
  attempts : Nat
  totalBackoff : ℚ
deriving DecidableEq, Repr

/-- `urllib3` backoff before the next attempt, given the number of
consecutive errors so far: zero for the first retry, then
`backoff_factor * 2 ^ (consecutiveErrors - 1)`. -/
def backoffTime (factor : ℚ) (consecutiveErrors : Nat) : ℚ :=
  if consecutiveErrors ≤ 1 then 0 else factor * 2 ^ (consecutiveErrors - 1)

/-- One `session.get` under the mounted retry adapter.  `net` gives the
outcome of each low-level attempt (0-based).  `remaining` is the `total`
budget of the `Retry` object: a retry-eligible failure decrements it and the
call fails once it would go negative, so `total = 0` means a single attempt.
Terminal URL errors are raised outside the adapter and never retried.
A response whose status is in the forcelist is treated as a retryable error;
when the budget is exhausted the adapter raises (`raise_on_status`), which
`requests` surfaces as `RetryError`, and the response is never returned. -/
def sessionGetAux (policy : RetryPolicy) (net : Nat → AttemptResult) :
    Nat → Nat → Nat → ℚ → GetTrace
  | 0, attempt, _, acc =>
    match net attempt with
    | .invalidSchema    => ⟨.exn .invalidSchema, attempt + 1, acc⟩
    | .missingSchema    => ⟨.exn .missingSchema, attempt + 1, acc⟩
    | .tooManyRedirects => ⟨.exn .tooManyRedirects, attempt + 1, acc⟩
    | .connectionError  => ⟨.exn .connectionError, attempt + 1, acc⟩
    | .response s =>
      if s ∈ policy.statusForcelist then ⟨.exn .retryError, attempt + 1, acc⟩
      else ⟨.resp s, attempt + 1, acc⟩
  | r + 1, attempt, errCount, acc =>
    match net attempt with
    | .invalidSchema    => ⟨.exn .invalidSchema, attempt + 1, acc⟩
    | .missingSchema    => ⟨.exn .missingSchema, attempt + 1, acc⟩
    | .tooManyRedirects => ⟨.exn .tooManyRedirects, attempt + 1, acc⟩
    | .connectionError  =>
      sessionGetAux policy net r (attempt + 1) (errCount + 1)
        (acc + backoffTime policy.backoffFactor (errCount + 1))
    | .response s =>
      if s ∈ policy.statusForcelist then
        sessionGetAux policy net r (attempt + 1) (errCount + 1)
          (acc + backoffTime policy.backoffFactor (errCount + 1))
      else ⟨.resp s, attempt + 1, acc⟩

/-- `session.get(url, ...)` as configured by `create_session`. -/
def sessionGet (policy : RetryPolicy) (net : Nat → AttemptResult) : GetTrace :=
  sessionGetAux policy net policy.maxRetries 0 0 0

/-- Result of `newspaper.Article(url); article.download()`.  `downloadState`
is the library field `download_state`; 2 means the download succeeded, and
the extractor fields hold whatever `parse` and `nlp` would produce. -/
structure ArticleData where
  downloadState : Nat
  text : String
  title : String
  keywords : List String
  tags : List String
  metaKeywords : List String
  html : String
deriving DecidableEq, Repr

/-- The external collaborators, fixed for one run: the network behaviour of
each URL per low-level attempt, the article extractor, and the date parser
`get_date_time` applied to the downloaded html.  `dateTime html = none`
models `get_date_time` raising (for instance when the page has no time tag);
the source does not catch this exception. -/
structure WebEnv where
  net : String → Nat → AttemptResult
  article : String → ArticleData
  dateTime : String → Option (String × String)

/-- One data row of the clean sink, in the column order written at source
line 140: text, title, keywords, url, tags, meta keywords, date, time. -/
structure CleanRow where
  text : String
  title : String
  keywords : List String
  url : String
  tags : List String
  metaKeywords : List String
  date : String
  time : String
deriving DecidableEq, Repr

/-- One data row of the error sink: url and reason. -/
structure ErrorRow where
  url : String
  error : String
deriving DecidableEq, Repr

/-- Header rows written once by `main` before any worker starts. -/
def cleanHeader : List String :=
  ["text", "title", "keywords", "url", "tags", "meta_tags", "date", "time"]

/-- Header of the error sink. -/
def errorHeader : List String := ["url", "error"]

/-- Everything observable from one call of `get_text_from_url` on one work
item: the rows it appends to each sink, the lines it prints, whether an
uncaught exception escaped (killing the worker thread), and the fetch trace
statistics. -/
structure ItemResult where
  cleanRows : List CleanRow
  errorRows : List ErrorRow
  logs : List String
  raised : Bool
  attempts : Nat
  backoff : ℚ
deriving DecidableEq, Repr

/-- `response.ok` of `requests`: true when the status code is below 400. -/
def responseOk (status : Nat) : Bool := status < 400

/-- `get_text_from_url(url, session, cleanwriter, errorwriter, ...)`.
The five caught exception classes each append one error row with the class
name and print a diagnostic line with the item index (the later
`response is None` branch also prints the not-a-valid-URL line).  A returned
response that is not ok appends one error row with the numeric status code.
An ok response is handed to the article extractor: when
`download_state = 2` the row is written only after `get_date_time`
succeeds; when `get_date_time` raises, the exception is not caught, so no
row is written anywhere and the worker dies (`raised = true`).  When
`download_state` differs from 2 the branch falls through and writes
nothing at all. -/
def get_text_from_url (env : WebEnv) (policy : RetryPolicy)
    (url : Nat × String) : ItemResult :=
  let urlIdx := url.1
  let urlStr := url.2
  let tr := sessionGet policy (env.net urlStr)
  match tr.result with
  | .exn e =>
    { cleanRows := []
      errorRows := [⟨urlStr, e.className⟩]
      logs := ["#" ++ toString urlIdx ++ ": " ++ e.className ++ " " ++ urlStr,
               urlStr ++ " is not a valid URL"]
      raised := false
      attempts := tr.attempts
      backoff := tr.totalBackoff }
  | .resp s =>
    if responseOk s then
      let article := env.article urlStr
      if article.downloadState = 2 then
        match env.dateTime article.html with
        | some (d, t) =>
          { cleanRows := [⟨article.text, article.title, article.keywords, urlStr,
                          article.tags, article.metaKeywords, d, t⟩]
            errorRows := []
            logs := []
            raised := false
            attempts := tr.attempts
            backoff := tr.totalBackoff }
        | none =>
          { cleanRows := []
            errorRows := []
            logs := []
            raised := true
            attempts := tr.attempts
            backoff := tr.totalBackoff }
      else
        { cleanRows := []
          errorRows := []
          logs := []
          raised := false
          attempts := tr.attempts
          backoff := tr.totalBackoff }
    else
      { cleanRows := []
        errorRows := [⟨urlStr, toString s⟩]
        logs := ["#" ++ toString urlIdx ++ ": Error with status code " ++ toString s
                  ++ " for URL: " ++ urlStr]
        raised := false
        attempts := tr.attempts
        backoff := tr.totalBackoff }

/-- The drain of the FIFO work queue by `live` symmetric workers, each
running `target_task` (pop, `get_text_from_url`, `task_done`, repeat until
the queue is empty).  Because processing an item has no effect on any other
item (the sinks are append-only and the outcome of an item is a pure
function of the environment and the item), every thread interleaving yields
the same per-item results; what scheduling can change is only the relative
order of sink rows, which no claim depends on.  A worker whose item raises
dies and reduces the live-worker count; when no live worker remains, the
rest of the queue is never dequeued.  Returns the results of the consumed
items in queue order, and the unconsumed remainder of the queue. -/
def runPool (env : WebEnv) (policy : RetryPolicy) :
    List (Nat × String) → Nat → List ItemResult × List (Nat × String)
  | queue, 0 => ([], queue)
  | [], _ + 1 => ([], [])
  | item :: rest, live + 1 =>
    let r := get_text_from_url env policy item
    let p := runPool env policy rest (if r.raised then live else live + 1)
    (r :: p.1, p.2)

/-- `clean_up_output(filename)`: read the clean sink back, drop the rows
whose text column is missing (an empty text field round-trips through the
csv as NaN and is dropped by `dropna`), rewrite the sink, and return the
number of surviving rows.  Modelled on the list of data rows: returns the
surviving rows and their count. -/
def clean_up_output (rows : List CleanRow) : List CleanRow × Nat :=
  let kept := rows.filter (fun r => r.text ≠ "")
  (kept, kept.length)

/-- `threads = min(args.threads, total_urls)`: the number of worker threads
`main` launches. -/
def mainThreads (requested totalURLs : Nat) : Nat := min requested totalURLs

/-- The one way `main` can die after the workers finish: the success-rate
division when the input list is empty. -/
inductive RunError
  | zeroDivision
deriving DecidableEq, Repr

/-- Totals reported by the final summary line of `main`. -/
structure RunSummary where
  totalURLs : Nat
  successfulCount : Nat
  successRate : ℚ
deriving DecidableEq, Repr

/-- Observable outcome of a completed run: the clean sink after
reconciliation, the error sink, and the reported summary. -/
structure RunOutput where
  cleanSink : List CleanRow
  errorSink : List ErrorRow
  summary : RunSummary
deriving DecidableEq, Repr

/-- `main()` after argument parsing and input reading: build the session,
enqueue `(i, urls[i])` for every index, launch `min(threads, total_urls)`
workers, wait for the drain, reconcile the clean sink with
`clean_up_output`, and compute the summary.  `success_rate =
successful_urls / total_urls` is Python integer-over-integer division: when
`total_urls = 0` it raises ZeroDivisionError, modelled as `RunError`. -/
def mainRun (env : WebEnv) (requestedThreads maxRetries : Nat) (backoff : ℚ)
    (urls : List String) : Except RunError RunOutput :=
  let policy := create_session maxRetries backoff
  let totalURLs := urls.length
  let threads := mainThreads requestedThreads totalURLs
  let queue := (List.range totalURLs).zip urls
  let results := (runPool env policy queue threads).1
  let cleanRows := (results.map ItemResult.cleanRows).flatten
  let errorRows := (results.map ItemResult.errorRows).flatten
  let successfulURLs := (clean_up_output cleanRows).2
  if totalURLs = 0 then
    Except.error RunError.zeroDivision
  else
    Except.ok
      { cleanSink := (clean_up_output cleanRows).1
        errorSink := errorRows
        summary :=
          { totalURLs := totalURLs
            successfulCount := successfulURLs
            successRate := (successfulURLs : ℚ) / (totalURLs : ℚ) } }

/-! ### Concrete environments used to exercise the theorems -/

/-- An article whose download succeeded. -/
def demoArticle : ArticleData :=
  { downloadState := 2
    text := "Body text"
    title := "Title"
    keywords := ["k"]
    tags := ["t"]
    metaKeywords := ["m"]
    html := "<html><time>x 2020-01-01 10:00:00 تم</time></html>" }

/-- Every URL answers 200 at once, downloads fine and has a parsable time
tag. -/
def okEnv : WebEnv :=
  { net := fun _ _ => .response 200
    article := fun _ => demoArticle
    dateTime := fun _ => some ("2020-01-01", "10:00:00") }

/-- Every URL raises MissingSchema when requested. -/
def missingSchemaEnv : WebEnv :=
  { net := fun _ _ => .missingSchema
    article := fun _ => demoArticle
    dateTime := fun _ => some ("2020-01-01", "10:00:00") }

/-- Every URL answers 404. -/
def status404Env : WebEnv :=
  { net := fun _ _ => .response 404
    article := fun _ => demoArticle
    dateTime := fun _ => some ("2020-01-01", "10:00:00") }

/-- Every URL answers 500, a status in the retry forcelist. -/
def status500Env : WebEnv :=
  { net := fun _ _ => .response 500
    article := fun _ => demoArticle
    dateTime := fun _ => some ("2020-01-01", "10:00:00") }

/-- Every fetch attempt fails with a connection error. -/
def connFailEnv : WebEnv :=
  { net := fun _ _ => .connectionError
    article := fun _ => demoArticle
    dateTime := fun _ => some ("2020-01-01", "10:00:00") }

/-- The fetch succeeds and the download succeeds, but the page has no
parsable time tag, so `get_date_time` raises. -/
def parseFailEnv : WebEnv :=
  { net := fun _ _ => .response 200
    article := fun _ => demoArticle
    dateTime := fun _ => none }

/-- The fetch succeeds but the article download does not reach state 2. -/
def downloadFailEnv : WebEnv :=
  { net := fun _ _ => .response 200
    article := fun _ => { demoArticle with downloadState := 0 }
    dateTime := fun _ => some ("2020-01-01", "10:00:00") }

/-- All clean-sink data rows produced by the consumed front of the queue. -/
def poolCleanRows (env : WebEnv) (policy : RetryPolicy)
    (front : List (Nat × String)) : List CleanRow :=
  ((front.map (get_text_from_url env policy)).map ItemResult.cleanRows).flatten

/-- All error-sink data rows produced by the consumed front of the queue. -/
def poolErrorRows (env : WebEnv) (policy : RetryPolicy)
    (front : List (Nat × String)) : List ErrorRow :=
  ((front.map (get_text_from_url env policy)).map ItemResult.errorRows).flatten

example :
    sessionGet (create_session 0 0) (fun _ => .response 200) =
      ⟨.resp 200, 1, 0⟩ := by decide

example :
    sessionGet (create_session 0 0) (fun _ => .response 500) =
      ⟨.exn .retryError, 1, 0⟩ := by decide

example :
    sessionGet (create_session 2 1) (fun n => if n < 2 then .connectionError else .response 200) =
      ⟨.resp 200, 3, 2⟩ := by
  norm_num [sessionGet, sessionGetAux, create_session, backoffTime]

example :
    sessionGet (create_session 3 0) (fun _ => .missingSchema) =
      ⟨.exn .missingSchema, 1, 0⟩ := by decide

/-! ### Behaviour of one `session.get` call -/

/-- A terminal URL error on the first attempt escapes at once: one attempt,
no backoff, whatever the retry policy. -/
theorem sessionGet_terminal (policy : RetryPolicy) (net : Nat → AttemptResult)
    (e : ExcKind) (h : (net 0).terminalExc = some e) :
    sessionGet policy net = ⟨.exn e, 1, 0⟩ := by
  cases hn : net 0 <;>
    simp only [AttemptResult.terminalExc, hn, Option.some.injEq, reduceCtorEq] at h <;>
    cases hm : policy.maxRetries <;>
    simp [sessionGet, sessionGetAux, hn, hm, ← h]

/-- With a zero retry budget, a first-attempt connection error escapes as
`ConnectionError` after a single attempt and no backoff. -/
theorem sessionGet_conn_zero (policy : RetryPolicy) (net : Nat → AttemptResult)
    (h0 : policy.maxRetries = 0) (hn : net 0 = .connectionError) :
    sessionGet policy net = ⟨.exn .connectionError, 1, 0⟩ := by
  simp [sessionGet, sessionGetAux, hn, h0]

/-- With a zero retry budget, a first response whose status is in the
forcelist is never returned: the adapter raises and `requests` surfaces
`RetryError`, after a single attempt and no backoff. -/
theorem sessionGet_status_zero (policy : RetryPolicy) (net : Nat → AttemptResult)
    (s : Nat) (h0 : policy.maxRetries = 0) (hn : net 0 = .response s)
    (hfl : s ∈ policy.statusForcelist) :
    sessionGet policy net = ⟨.exn .retryError, 1, 0⟩ := by
  simp [sessionGet, sessionGetAux, hn, h0, hfl]

/-- A first response whose status is not in the forcelist is returned at
once, whatever the retry policy: one attempt, no backoff. -/
theorem sessionGet_resp_first (policy : RetryPolicy) (net : Nat → AttemptResult)
    (s : Nat) (hn : net 0 = .response s) (hfl : s ∉ policy.statusForcelist) :
    sessionGet policy net = ⟨.resp s, 1, 0⟩ := by
  cases hm : policy.maxRetries <;> simp [sessionGet, sessionGetAux, hn, hm, hfl]

/-! ### Behaviour of `get_text_from_url` per branch -/

/-- When `session.get` raises one of the five caught exception classes, one
error row is written with the class name, two diagnostic lines are printed
(the first carrying the item index), nothing reaches the clean sink, and no
exception escapes: the worker continues. -/
theorem get_text_exn (env : WebEnv) (policy : RetryPolicy) (i : Nat) (u : String)
    (e : ExcKind) (h : (sessionGet policy (env.net u)).result = .exn e) :
    get_text_from_url env policy (i, u) =
      { cleanRows := []
        errorRows := [⟨u, e.className⟩]
        logs := ["#" ++ toString i ++ ": " ++ e.className ++ " " ++ u,
                 u ++ " is not a valid URL"]
        raised := false
        attempts := (sessionGet policy (env.net u)).attempts
        backoff := (sessionGet policy (env.net u)).totalBackoff } := by
  simp only [get_text_from_url, h]

/-- When a response comes back but is not ok (status at least 400), one
error row is written with the numeric status code and a diagnostic line with
the item index is printed; the worker continues. -/
theorem get_text_badStatus (env : WebEnv) (policy : RetryPolicy) (i : Nat) (u : String)
    (s : Nat) (h : (sessionGet policy (env.net u)).result = .resp s)
    (hok : ¬ s < 400) :
    get_text_from_url env policy (i, u) =
      { cleanRows := []
        errorRows := [⟨u, toString s⟩]
        logs := ["#" ++ toString i ++ ": Error with status code " ++ toString s
                  ++ " for URL: " ++ u]
        raised := false
        attempts := (sessionGet policy (env.net u)).attempts
        backoff := (sessionGet policy (env.net u)).totalBackoff } := by
  simp only [get_text_from_url, h, responseOk, decide_eq_true_eq]
  rw [if_neg hok]

/-- When the response is ok, the download reached state 2 and the date
parser succeeds, exactly one clean row is written. -/
theorem get_text_success (env : WebEnv) (policy : RetryPolicy) (i : Nat) (u : String)
    (s : Nat) (d t : String) (h : (sessionGet policy (env.net u)).result = .resp s)
    (hok : s < 400) (hds : (env.article u).downloadState = 2)
    (hdt : env.dateTime (env.article u).html = some (d, t)) :
    get_text_from_url env policy (i, u) =
      { cleanRows := [⟨(env.article u).text, (env.article u).title,
                      (env.article u).keywords, u, (env.article u).tags,
                      (env.article u).metaKeywords, d, t⟩]
        errorRows := []
        logs := []
        raised := false
        attempts := (sessionGet policy (env.net u)).attempts
        backoff := (sessionGet policy (env.net u)).totalBackoff } := by
  simp only [get_text_from_url, h, responseOk, decide_eq_true_eq]
  rw [if_pos hok, if_pos hds, hdt]

/-- When the response is ok, the download reached state 2 but the date
parser raises, the exception escapes `get_text_from_url`: no row is written
to either sink, nothing is printed, and the worker dies. -/
theorem get_text_extract_none (env : WebEnv) (policy : RetryPolicy) (i : Nat) (u : String)
    (s : Nat) (h : (sessionGet policy (env.net u)).result = .resp s)
    (hok : s < 400) (hds : (env.article u).downloadState = 2)
    (hdt : env.dateTime (env.article u).html = none) :
    get_text_from_url env policy (i, u) =
      { cleanRows := []
        errorRows := []
        logs := []
        raised := true
        attempts := (sessionGet policy (env.net u)).attempts
        backoff := (sessionGet policy (env.net u)).totalBackoff } := by
  simp only [get_text_from_url, h, responseOk, decide_eq_true_eq]
  rw [if_pos hok, if_pos hds, hdt]

/-- When the response is ok but the article download did not reach state 2,
the branch writes nothing anywhere and prints nothing: the URL is silently
dropped. -/
theorem get_text_skip (env : WebEnv) (policy : RetryPolicy) (i : Nat) (u : String)
    (s : Nat) (h : (sessionGet policy (env.net u)).result = .resp s)
    (hok : s < 400) (hds : (env.article u).downloadState ≠ 2) :
    get_text_from_url env policy (i, u) =
      { cleanRows := []
        errorRows := []
        logs := []
        raised := false
        attempts := (sessionGet policy (env.net u)).attempts
        backoff := (sessionGet policy (env.net u)).totalBackoff } := by
  simp only [get_text_from_url, h, responseOk, decide_eq_true_eq]
  rw [if_pos hok, if_neg hds]

/-! ### Per-item facts -/

/-- Processing one work item appends at most one row in total across the
two sinks. -/
theorem item_row_bound (env : WebEnv) (policy : RetryPolicy) (i : Nat) (u : String) :
    (get_text_from_url env policy (i, u)).cleanRows.length
      + (get_text_from_url env policy (i, u)).errorRows.length ≤ 1 := by
  cases h : (sessionGet policy (env.net u)).result with
  | exn e => rw [get_text_exn env policy i u e h]; simp
  | resp s =>
    by_cases hok : s < 400
    · by_cases hds : (env.article u).downloadState = 2
      · cases hdt : env.dateTime (env.article u).html with
        | none => rw [get_text_extract_none env policy i u s h hok hds hdt]; simp
        | some dt =>
          obtain ⟨d, t⟩ := dt
          rw [get_text_success env policy i u s d t h hok hds hdt]; simp
      · rw [get_text_skip env policy i u s h hok hds]; simp
    · rw [get_text_badStatus env policy i u s h hok]; simp

/-- Every clean row written while processing an item carries that item's
URL. -/
theorem item_clean_url (env : WebEnv) (policy : RetryPolicy) (i : Nat) (u : String) :
    ∀ row ∈ (get_text_from_url env policy (i, u)).cleanRows, row.url = u := by
  cases h : (sessionGet policy (env.net u)).result with
  | exn e => rw [get_text_exn env policy i u e h]; simp
  | resp s =>
    by_cases hok : s < 400
    · by_cases hds : (env.article u).downloadState = 2
      · cases hdt : env.dateTime (env.article u).html with
        | none => rw [get_text_extract_none env policy i u s h hok hds hdt]; simp
        | some dt =>
          obtain ⟨d, t⟩ := dt
          rw [get_text_success env policy i u s d t h hok hds hdt]
          intro row hrow
          simp only [List.mem_singleton] at hrow
          rw [hrow]
      · rw [get_text_skip env policy i u s h hok hds]; simp
    · rw [get_text_badStatus env policy i u s h hok]; simp

/-- Every error row written while processing an item carries that item's
URL. -/
theorem item_error_url (env : WebEnv) (policy : RetryPolicy) (i : Nat) (u : String) :
    ∀ row ∈ (get_text_from_url env policy (i, u)).errorRows, row.url = u := by
  cases h : (sessionGet policy (env.net u)).result with
  | exn e =>
    rw [get_text_exn env policy i u e h]
    intro row hrow
    simp only [List.mem_singleton] at hrow
    rw [hrow]
  | resp s =>
    by_cases hok : s < 400
    · by_cases hds : (env.article u).downloadState = 2
      · cases hdt : env.dateTime (env.article u).html with
        | none => rw [get_text_extract_none env policy i u s h hok hds hdt]; simp
        | some dt =>
          obtain ⟨d, t⟩ := dt
          rw [get_text_success env policy i u s d t h hok hds hdt]; simp
      · rw [get_text_skip env policy i u s h hok hds]; simp
    · rw [get_text_badStatus env policy i u s h hok]
      intro row hrow
      simp only [List.mem_singleton] at hrow
      rw [hrow]

/-- The sink an item goes to depends only on the environment, the policy and
the URL string, never on the diagnostic index: if processing the URL under
one index yields a clean row, processing the same URL under any index yields
no error row. -/
theorem item_excl (env : WebEnv) (policy : RetryPolicy) (i j : Nat) (u : String)
    (h : (get_text_from_url env policy (i, u)).cleanRows ≠ []) :
    (get_text_from_url env policy (j, u)).errorRows = [] := by
  cases hres : (sessionGet policy (env.net u)).result with
  | exn e => rw [get_text_exn env policy i u e hres] at h; simp at h
  | resp s =>
    by_cases hok : s < 400
    · by_cases hds : (env.article u).downloadState = 2
      · cases hdt : env.dateTime (env.article u).html with
        | none => rw [get_text_extract_none env policy i u s hres hok hds hdt] at h; simp at h
        | some dt =>
          obtain ⟨d, t⟩ := dt
          rw [get_text_success env policy j u s d t hres hok hds hdt]
      · rw [get_text_skip env policy i u s hres hok hds] at h; simp at h
    · rw [get_text_badStatus env policy i u s hres hok] at h; simp at h

/-! ### Facts about the worker pool drain -/

/-- The pool consumes a front segment of the FIFO queue, producing exactly
the per-item results of `get_text_from_url` on the consumed items, and
leaves the rest untouched. -/
theorem runPool_split (env : WebEnv) (policy : RetryPolicy) :
    ∀ (queue : List (Nat × String)) (live : Nat),
      ∃ front rem, queue = front ++ rem ∧
        runPool env policy queue live =
          (front.map (get_text_from_url env policy), rem) := by
  intro queue
  induction queue with
  | nil =>
    intro live
    cases live <;> exact ⟨[], [], rfl, by simp [runPool]⟩
  | cons item rest ih =>
    intro live
    cases live with
    | zero => exact ⟨[], item :: rest, rfl, by simp [runPool]⟩
    | succ l =>
      obtain ⟨front, rem, hsplit, hrun⟩ :=
        ih (if (get_text_from_url env policy item).raised then l else l + 1)
      refine ⟨item :: front, rem, by rw [hsplit, List.cons_append], ?_⟩
      simp only [runPool, hrun, List.map_cons]

/-- As long as there are at least as many live workers as queued items, the
queue is fully consumed: even if every item kills its worker, each death
consumes one item. -/
theorem runPool_drain (env : WebEnv) (policy : RetryPolicy) :
    ∀ (queue : List (Nat × String)) (live : Nat), queue.length ≤ live →
      (runPool env policy queue live).2 = [] := by
  intro queue
  induction queue with
  | nil =>
    intro live _
    cases live <;> simp [runPool]
  | cons item rest ih =>
    intro live hle
    cases live with
    | zero => simp at hle
    | succ l =>
      simp only [List.length_cons, Nat.add_le_add_iff_right] at hle
      have hrest : rest.length ≤
          if (get_text_from_url env policy item).raised then l else l + 1 := by
        split <;> omega
      simp only [runPool]
      exact ih _ hrest

/-- Across the results of the consumed items, the total number of data rows
written to the two sinks is at most the number of consumed items. -/
theorem rows_bound (env : WebEnv) (policy : RetryPolicy) :
    ∀ front : List (Nat × String),
      ((front.map (get_text_from_url env policy)).map ItemResult.cleanRows).flatten.length
        + ((front.map (get_text_from_url env policy)).map ItemResult.errorRows).flatten.length
        ≤ front.length := by
  intro front
  induction front with
  | nil => simp
  | cons item rest ih =>
    obtain ⟨i, u⟩ := item
    have hb := item_row_bound env policy i u
    simp only [List.map_cons, List.flatten_cons, List.length_append, List.length_cons]
    omega

/-! ### Claims -/

/-- C1: the spec requires that a run on an empty input list completes with
`totalURLs = 0` and a success rate of 0 or an explicit undefined marker.
The code instead reaches `success_rate = successful_urls / total_urls` with
`total_urls = 0` and raises ZeroDivisionError: the run crashes on every
empty input, whatever the configuration. -/
theorem c1_empty_run_raises_zero_division (env : WebEnv) (t m : Nat) (b : ℚ) :
    mainRun env t m b [] = Except.error RunError.zeroDivision := by
  simp [mainRun]

/-- C2 (counterexample): a failure raised by the date-parsing step after a
successful fetch is not recorded to the Error Sink and does not let the
worker continue: processing the item writes no error row and the exception
escapes, killing the worker.  This refutes the claim that every failure
kind is recorded and that no failure aborts the worker. -/
theorem c2_counterexample_extraction_failure :
    (get_text_from_url parseFailEnv (create_session 0 0) (0, "http://a.example/x")).errorRows
        = []
      ∧ (get_text_from_url parseFailEnv (create_session 0 0) (0, "http://a.example/x")).raised
        = true := by
  exact ⟨rfl, rfl⟩

/-- C2 (amended): every failure raised and caught at the fetch layer is
recorded to the Error Sink and logged with the diagnostic index, and the
worker continues: the five caught exception classes yield one error row
with the class name, and a non-ok response yields one error row with the
numeric status code.  A failure in the article-extraction or date-parsing
step after a successful fetch, however, is not caught: nothing is recorded
to either sink and the worker aborts. -/
theorem c2_fetch_failures_recorded_worker_survives (env : WebEnv) (policy : RetryPolicy)
    (i : Nat) (u : String) :
    (∀ e : ExcKind, (sessionGet policy (env.net u)).result = .exn e →
      (get_text_from_url env policy (i, u)).errorRows = [⟨u, e.className⟩] ∧
      (get_text_from_url env policy (i, u)).raised = false ∧
      (get_text_from_url env policy (i, u)).logs =
        ["#" ++ toString i ++ ": " ++ e.className ++ " " ++ u,
         u ++ " is not a valid URL"])
    ∧ (∀ s : Nat, (sessionGet policy (env.net u)).result = .resp s → ¬ s < 400 →
      (get_text_from_url env policy (i, u)).errorRows = [⟨u, toString s⟩] ∧
      (get_text_from_url env policy (i, u)).raised = false ∧
      (get_text_from_url env policy (i, u)).logs =
        ["#" ++ toString i ++ ": Error with status code " ++ toString s ++ " for URL: " ++ u])
    ∧ (∀ s : Nat, (sessionGet policy (env.net u)).result = .resp s → s < 400 →
      (env.article u).downloadState = 2 → env.dateTime (env.article u).html = none →
      (get_text_from_url env policy (i, u)).errorRows = [] ∧
      (get_text_from_url env policy (i, u)).cleanRows = [] ∧
      (get_text_from_url env policy (i, u)).logs = [] ∧
      (get_text_from_url env policy (i, u)).raised = true) := by
  refine ⟨?_, ?_, ?_⟩
  · intro e h
    rw [get_text_exn env policy i u e h]
    exact ⟨rfl, rfl, rfl⟩
  · intro s h hok
    rw [get_text_badStatus env policy i u s h hok]
    exact ⟨rfl, rfl, rfl⟩
  · intro s h hok hds hdt
    rw [get_text_extract_none env policy i u s h hok hds hdt]
    exact ⟨rfl, rfl, rfl, rfl⟩

/-- C2 (witness): the amended statement at three concrete environments:
a MissingSchema fetch failure, a 404 response, and a date-parsing failure
after a successful fetch. -/
theorem c2_witness :
    ((get_text_from_url missingSchemaEnv (create_session 0 0) (3, "not-a-url")).errorRows
        = [⟨"not-a-url", "MissingSchema"⟩] ∧
      (get_text_from_url missingSchemaEnv (create_session 0 0) (3, "not-a-url")).raised = false ∧
      (get_text_from_url missingSchemaEnv (create_session 0 0) (3, "not-a-url")).logs =
        ["#" ++ toString 3 ++ ": " ++ ExcKind.missingSchema.className ++ " " ++ "not-a-url",
         "not-a-url" ++ " is not a valid URL"])
    ∧ ((get_text_from_url status404Env (create_session 0 0) (1, "http://v.example/404")).errorRows
        = [⟨"http://v.example/404", toString 404⟩] ∧
      (get_text_from_url status404Env (create_session 0 0) (1, "http://v.example/404")).raised
        = false ∧
      (get_text_from_url status404Env (create_session 0 0) (1, "http://v.example/404")).logs =
        ["#" ++ toString 1 ++ ": Error with status code " ++ toString 404 ++ " for URL: "
          ++ "http://v.example/404"])
    ∧ ((get_text_from_url parseFailEnv (create_session 0 0) (2, "http://a.example/y")).errorRows
        = [] ∧
      (get_text_from_url parseFailEnv (create_session 0 0) (2, "http://a.example/y")).cleanRows
        = [] ∧
      (get_text_from_url parseFailEnv (create_session 0 0) (2, "http://a.example/y")).logs = [] ∧
      (get_text_from_url parseFailEnv (create_session 0 0) (2, "http://a.example/y")).raised
        = true) :=
  ⟨(c2_fetch_failures_recorded_worker_survives missingSchemaEnv (create_session 0 0)
      3 "not-a-url").1 .missingSchema rfl,
   (c2_fetch_failures_recorded_worker_survives status404Env (create_session 0 0)
      1 "http://v.example/404").2.1 404 rfl (by decide),
   (c2_fetch_failures_recorded_worker_survives parseFailEnv (create_session 0 0)
      2 "http://a.example/y").2.2 200 rfl (by decide) rfl rfl⟩

/-- C3: the number of worker threads launched equals
`min(requestedThreads, totalURLs)`; in particular, when more threads are
requested than there are URLs, exactly `totalURLs` workers run, and the pool
consumes every enqueued work item (even a worker death consumes the item
that killed it, and with as many workers as items no item can be left). -/
theorem c3_thread_count_and_drain (env : WebEnv) (policy : RetryPolicy)
    (requested : Nat) (urls : List String) (h : urls.length < requested) :
    mainThreads requested urls.length = urls.length ∧
    (runPool env policy ((List.range urls.length).zip urls)
        (mainThreads requested urls.length)).2 = [] := by
  have hmin : mainThreads requested urls.length = urls.length := by
    simp only [mainThreads]
    omega
  refine ⟨hmin, ?_⟩
  apply runPool_drain
  rw [hmin, List.length_zip, List.length_range]
  omega

/-- C3 (witness): five threads requested for two URLs: two workers launch
and the queue is fully consumed. -/
theorem c3_witness :
    (["http://a.example/", "http://b.example/"] : List String).length < 5 ∧
    (mainThreads 5 (["http://a.example/", "http://b.example/"] : List String).length
        = (["http://a.example/", "http://b.example/"] : List String).length ∧
      (runPool okEnv (create_session 0 0)
        ((List.range (["http://a.example/", "http://b.example/"] : List String).length).zip
          ["http://a.example/", "http://b.example/"])
        (mainThreads 5 (["http://a.example/", "http://b.example/"] : List String).length)).2
        = []) :=
  ⟨by decide,
   c3_thread_count_and_drain okEnv (create_session 0 0) 5
     ["http://a.example/", "http://b.example/"] (by decide)⟩

/-- C7 (counterexample): a 500 response is a non-2xx/3xx HTTP response with
no transport error, yet the recorded reason is not the numeric status code:
because 500 is in the forcelist of the mounted retry adapter, the adapter
raises and `requests` surfaces `RetryError`, which is what the error sink
records. -/
theorem c7_counterexample_forcelist_status :
    (get_text_from_url status500Env (create_session 0 0) (0, "http://e.example/")).errorRows
        = [⟨"http://e.example/", "RetryError"⟩]
      ∧ (get_text_from_url status500Env (create_session 0 0) (0, "http://e.example/")).errorRows
        ≠ [⟨"http://e.example/", "500"⟩] := by
  exact ⟨rfl, by decide⟩

/-- C7 (amended): for a response whose status is non-2xx/3xx (and at least
200: the client never surfaces informational responses) and not in the
retry forcelist, exactly one error row is appended whose reason is the
numeric status code, the item makes a single fetch attempt with no backoff,
and the worker continues.  For forcelist statuses the adapter instead
raises `RetryError` and the numeric code is never recorded. -/
theorem c7_nonsuccess_status_row (env : WebEnv) (policy : RetryPolicy)
    (i : Nat) (u : String) (s : Nat)
    (hfirst : env.net u 0 = .response s)
    (hfl : s ∉ policy.statusForcelist)
    (h2 : ¬ (200 ≤ s ∧ s < 300)) (h3 : ¬ (300 ≤ s ∧ s < 400)) (hlow : 200 ≤ s) :
    (get_text_from_url env policy (i, u)).errorRows = [⟨u, toString s⟩] ∧
    (get_text_from_url env policy (i, u)).cleanRows = [] ∧
    (get_text_from_url env policy (i, u)).raised = false ∧
    (get_text_from_url env policy (i, u)).attempts = 1 ∧
    (get_text_from_url env policy (i, u)).backoff = 0 := by
  have htr : sessionGet policy (env.net u) = ⟨.resp s, 1, 0⟩ :=
    sessionGet_resp_first policy (env.net u) s hfirst hfl
  have hok : ¬ s < 400 := by omega
  rw [get_text_badStatus env policy i u s (by rw [htr]) hok, htr]
  exact ⟨rfl, rfl, rfl, rfl, rfl⟩

/-- C7 (witness): a 404 response is recorded with reason "404" after a
single attempt. -/
theorem c7_witness :
    status404Env.net "http://v.example/404" 0 = .response 404 ∧
    404 ∉ (create_session 0 0).statusForcelist ∧
    ((get_text_from_url status404Env (create_session 0 0) (2, "http://v.example/404")).errorRows
        = [⟨"http://v.example/404", toString 404⟩] ∧
      (get_text_from_url status404Env (create_session 0 0) (2, "http://v.example/404")).cleanRows
        = [] ∧
      (get_text_from_url status404Env (create_session 0 0) (2, "http://v.example/404")).raised
        = false ∧
      (get_text_from_url status404Env (create_session 0 0) (2, "http://v.example/404")).attempts
        = 1 ∧
      (get_text_from_url status404Env (create_session 0 0) (2, "http://v.example/404")).backoff
        = 0) :=
  ⟨rfl, by decide,
   c7_nonsuccess_status_row status404Env (create_session 0 0) 2 "http://v.example/404" 404
     rfl (by decide) (by omega) (by omega) (by omega)⟩

/-- C8: a work item whose fetch raises an unrecoverable URL error (malformed
scheme, missing scheme, or redirect-loop exhaustion) is terminal: a single
attempt is made with no backoff whatever the retry policy, and one row is
recorded immediately to the Error Sink with the exception class name as the
reason; the worker continues. -/
theorem c8_terminal_url_errors (env : WebEnv) (policy : RetryPolicy)
    (i : Nat) (u : String) (e : ExcKind)
    (h : (env.net u 0).terminalExc = some e) :
    (get_text_from_url env policy (i, u)).errorRows = [⟨u, e.className⟩] ∧
    (get_text_from_url env policy (i, u)).cleanRows = [] ∧
    (get_text_from_url env policy (i, u)).raised = false ∧
    (get_text_from_url env policy (i, u)).attempts = 1 ∧
    (get_text_from_url env policy (i, u)).backoff = 0 := by
  have htr := sessionGet_terminal policy (env.net u) e h
  rw [get_text_exn env policy i u e (by rw [htr]), htr]
  exact ⟨rfl, rfl, rfl, rfl, rfl⟩

/-- C8 (witness): a MissingSchema URL under a generous retry policy
(5 retries, positive backoff factor) still fails after exactly one attempt
and is recorded as MissingSchema. -/
theorem c8_witness :
    (missingSchemaEnv.net "not-a-url" 0).terminalExc = some ExcKind.missingSchema ∧
    ((get_text_from_url missingSchemaEnv (create_session 5 3) (0, "not-a-url")).errorRows
        = [⟨"not-a-url", ExcKind.missingSchema.className⟩] ∧
      (get_text_from_url missingSchemaEnv (create_session 5 3) (0, "not-a-url")).cleanRows = [] ∧
      (get_text_from_url missingSchemaEnv (create_session 5 3) (0, "not-a-url")).raised = false ∧
      (get_text_from_url missingSchemaEnv (create_session 5 3) (0, "not-a-url")).attempts = 1 ∧
      (get_text_from_url missingSchemaEnv (create_session 5 3) (0, "not-a-url")).backoff = 0) :=
  ⟨rfl, c8_terminal_url_errors missingSchemaEnv (create_session 5 3) 0 "not-a-url"
    ExcKind.missingSchema rfl⟩

/-- C9: with `maxRetries = 0` (the default), a first-attempt transient
failure fails immediately: a first-attempt connection error is recorded as
ConnectionError and a first response with a forcelist status is recorded as
RetryError, in both cases after exactly one attempt with zero backoff
delay, and the worker continues. -/
theorem c9_zero_retries_fail_fast (env : WebEnv) (b : ℚ) (i : Nat) (u : String) :
    (env.net u 0 = .connectionError →
      (get_text_from_url env (create_session 0 b) (i, u)).errorRows
          = [⟨u, "ConnectionError"⟩] ∧
      (get_text_from_url env (create_session 0 b) (i, u)).attempts = 1 ∧
      (get_text_from_url env (create_session 0 b) (i, u)).backoff = 0 ∧
      (get_text_from_url env (create_session 0 b) (i, u)).raised = false)
    ∧ (∀ s : Nat, env.net u 0 = .response s →
      s ∈ (create_session 0 b).statusForcelist →
      (get_text_from_url env (create_session 0 b) (i, u)).errorRows
          = [⟨u, "RetryError"⟩] ∧
      (get_text_from_url env (create_session 0 b) (i, u)).attempts = 1 ∧
      (get_text_from_url env (create_session 0 b) (i, u)).backoff = 0 ∧
      (get_text_from_url env (create_session 0 b) (i, u)).raised = false) := by
  constructor
  · intro hn
    have htr := sessionGet_conn_zero (create_session 0 b) (env.net u) rfl hn
    rw [get_text_exn env (create_session 0 b) i u .connectionError (by rw [htr]), htr]
    exact ⟨rfl, rfl, rfl, rfl⟩
  · intro s hn hfl
    have htr := sessionGet_status_zero (create_session 0 b) (env.net u) s rfl hn hfl
    rw [get_text_exn env (create_session 0 b) i u .retryError (by rw [htr]), htr]
    exact ⟨rfl, rfl, rfl, rfl⟩

/-- C9 (witness): a first-attempt connection error under the default
configuration is recorded immediately with one attempt and no backoff, and
so is a first 500 response. -/
theorem c9_witness :
    (connFailEnv.net "http://c.example/" 0 = .connectionError →
      (get_text_from_url connFailEnv (create_session 0 0) (0, "http://c.example/")).errorRows
          = [⟨"http://c.example/", "ConnectionError"⟩] ∧
      (get_text_from_url connFailEnv (create_session 0 0) (0, "http://c.example/")).attempts
          = 1 ∧
      (get_text_from_url connFailEnv (create_session 0 0) (0, "http://c.example/")).backoff
          = 0 ∧
      (get_text_from_url connFailEnv (create_session 0 0) (0, "http://c.example/")).raised
          = false) ∧
    (connFailEnv.net "http://c.example/" 0 = .connectionError) ∧
    (status500Env.net "http://f.example/" 0 = .response 500) ∧
    (500 ∈ (create_session 0 0).statusForcelist) ∧
    ((get_text_from_url status500Env (create_session 0 0) (1, "http://f.example/")).errorRows
        = [⟨"http://f.example/", "RetryError"⟩] ∧
      (get_text_from_url status500Env (create_session 0 0) (1, "http://f.example/")).attempts
          = 1 ∧
      (get_text_from_url status500Env (create_session 0 0) (1, "http://f.example/")).backoff
          = 0 ∧
      (get_text_from_url status500Env (create_session 0 0) (1, "http://f.example/")).raised
          = false) :=
  ⟨(c9_zero_retries_fail_fast connFailEnv 0 0 "http://c.example/").1, rfl, rfl, by decide,
   (c9_zero_retries_fail_fast status500Env 0 1 "http://f.example/").2 500 rfl (by decide)⟩

/-- C10: when the HTTP fetch succeeds (the response is ok) but the article
download does not reach state 2, no row is written to either sink and
nothing is printed: the URL is silently unaccounted for. -/
theorem c10_download_failure_silent (env : WebEnv) (policy : RetryPolicy)
    (i : Nat) (u : String) (s : Nat)
    (hres : (sessionGet policy (env.net u)).result = .resp s)
    (hok : s < 400) (hds : (env.article u).downloadState ≠ 2) :
    (get_text_from_url env policy (i, u)).cleanRows = [] ∧
    (get_text_from_url env policy (i, u)).errorRows = [] ∧
    (get_text_from_url env policy (i, u)).logs = [] ∧
    (get_text_from_url env policy (i, u)).raised = false := by
  rw [get_text_skip env policy i u s hres hok hds]
  exact ⟨rfl, rfl, rfl, rfl⟩

/-- C10 (witness): a URL that answers 200 but whose download state stays 0
leaves no trace in either sink. -/
theorem c10_witness :
    (sessionGet (create_session 0 0) (downloadFailEnv.net "http://d.example/")).result
        = .resp 200 ∧
    (200 : Nat) < 400 ∧
    (downloadFailEnv.article "http://d.example/").downloadState ≠ 2 ∧
    ((get_text_from_url downloadFailEnv (create_session 0 0) (0, "http://d.example/")).cleanRows
        = [] ∧
      (get_text_from_url downloadFailEnv (create_session 0 0) (0, "http://d.example/")).errorRows
        = [] ∧
      (get_text_from_url downloadFailEnv (create_session 0 0) (0, "http://d.example/")).logs
        = [] ∧
      (get_text_from_url downloadFailEnv (create_session 0 0) (0, "http://d.example/")).raised
        = false) :=
  ⟨rfl, by decide, by decide,
   c10_download_failure_silent downloadFailEnv (create_session 0 0) 0 "http://d.example/" 200
     rfl (by decide) (by decide)⟩

/-- A run over a non-empty URL list completes, and its output is determined
by the consumed front of the queue. -/
theorem mainRun_ok (env : WebEnv) (req mr : Nat) (b : ℚ) (urls : List String)
    (front rem : List (Nat × String))
    (hrun : runPool env (create_session mr b) ((List.range urls.length).zip urls)
        (mainThreads req urls.length)
      = (front.map (get_text_from_url env (create_session mr b)), rem))
    (htot : ¬ urls.length = 0) :
    mainRun env req mr b urls = Except.ok
      { cleanSink := (clean_up_output (poolCleanRows env (create_session mr b) front)).1
        errorSink := poolErrorRows env (create_session mr b) front
        summary :=
          { totalURLs := urls.length
            successfulCount :=
              (clean_up_output (poolCleanRows env (create_session mr b) front)).2
            successRate :=
              ((clean_up_output (poolCleanRows env (create_session mr b) front)).2 : ℚ)
                / (urls.length : ℚ) } } := by
  simp only [mainRun, hrun, if_neg htot, poolCleanRows, poolErrorRows]

/-- C4: for every run on a non-empty input list, the number of data rows in
the Clean Sink after reconciliation plus the number of data rows in the
Error Sink is at most the number of input URLs, and no URL appears in both
sinks: the sink an item goes to is a function of the URL alone, so every
row carrying a given URL lives in one sink only. -/
theorem c4_sink_partition (env : WebEnv) (req mr : Nat) (b : ℚ) (urls : List String)
    (h : urls ≠ []) :
    ∃ out, mainRun env req mr b urls = Except.ok out ∧
      out.cleanSink.length + out.errorSink.length ≤ urls.length ∧
      ∀ u : String, ¬ ((∃ row ∈ out.cleanSink, row.url = u) ∧
        (∃ row ∈ out.errorSink, row.url = u)) := by
  obtain ⟨front, rem, hsplit, hrun⟩ :=
    runPool_split env (create_session mr b) ((List.range urls.length).zip urls)
      (mainThreads req urls.length)
  have htot : ¬ urls.length = 0 := by
    simpa [List.length_eq_zero] using h
  refine ⟨_, mainRun_ok env req mr b urls front rem hrun htot, ?_, ?_⟩
  · -- row counting
    have hb := rows_bound env (create_session mr b) front
    have hql : ((List.range urls.length).zip urls).length = urls.length := by
      simp [List.length_zip, List.length_range]
    have hfl : front.length ≤ urls.length := by
      have hlen := congrArg List.length hsplit
      rw [hql, List.length_append] at hlen
      omega
    have hfilter :
        (clean_up_output (poolCleanRows env (create_session mr b) front)).1.length
          ≤ (poolCleanRows env (create_session mr b) front).length :=
      List.length_filter_le _ _
    dsimp only
    simp only [poolCleanRows, poolErrorRows] at *
    omega
  · -- no URL in both sinks
    rintro u ⟨⟨row1, hrow1, hurl1⟩, ⟨row2, hrow2, hurl2⟩⟩
    dsimp only at hrow1 hrow2
    have hrow1' : row1 ∈ poolCleanRows env (create_session mr b) front :=
      List.mem_of_mem_filter hrow1
    simp [poolCleanRows, List.mem_flatten, List.mem_map, Prod.exists] at hrow1'
    obtain ⟨l1, ⟨i1, u1, hit1, hfl1⟩, hmem1⟩ := hrow1'
    subst hfl1
    simp [poolErrorRows, List.mem_flatten, List.mem_map, Prod.exists] at hrow2
    obtain ⟨l2, ⟨i2, u2, hit2, hfl2⟩, hmem2⟩ := hrow2
    subst hfl2
    have e1 : row1.url = u1 :=
      item_clean_url env (create_session mr b) i1 u1 row1 hmem1
    have e2 : row2.url = u2 :=
      item_error_url env (create_session mr b) i2 u2 row2 hmem2
    have hu1 : u1 = u := by rw [← e1, hurl1]
    have hu2 : u2 = u := by rw [← e2, hurl2]
    rw [hu1] at hmem1
    rw [hu2] at hmem2
    have hne : (get_text_from_url env (create_session mr b) (i1, u)).cleanRows ≠ [] :=
      List.ne_nil_of_mem hmem1
    rw [item_excl env (create_session mr b) i1 i2 u hne] at hmem2
    exact (List.not_mem_nil row2) hmem2

/-- C4 (witness): a two-URL run where one URL succeeds and both sinks
together hold at most two rows, with no URL in both. -/
theorem c4_witness :
    (["http://a.example/", "not-a-url"] : List String) ≠ [] ∧
    ∃ out, mainRun okEnv 100 0 0 ["http://a.example/", "not-a-url"] = Except.ok out ∧
      out.cleanSink.length + out.errorSink.length
        ≤ (["http://a.example/", "not-a-url"] : List String).length ∧
      ∀ u : String, ¬ ((∃ row ∈ out.cleanSink, row.url = u) ∧
        (∃ row ∈ out.errorSink, row.url = u)) :=
  ⟨by simp, c4_sink_partition okEnv 100 0 0 ["http://a.example/", "not-a-url"] (by simp)⟩

/-- C5: after the reconciliation pass every row remaining in the Clean Sink
has a non-empty text field, and the reported successful count equals the
number of remaining rows. -/
theorem c5_reconciliation_and_count (env : WebEnv) (req mr : Nat) (b : ℚ)
    (urls : List String) (h : urls ≠ []) :
    ∃ out, mainRun env req mr b urls = Except.ok out ∧
      (∀ row ∈ out.cleanSink, row.text ≠ "") ∧
      out.summary.successfulCount = out.cleanSink.length := by
  obtain ⟨front, rem, hsplit, hrun⟩ :=
    runPool_split env (create_session mr b) ((List.range urls.length).zip urls)
      (mainThreads req urls.length)
  have htot : ¬ urls.length = 0 := by
    simpa [List.length_eq_zero] using h
  refine ⟨_, mainRun_ok env req mr b urls front rem hrun htot, ?_, ?_⟩
  · intro row hrow
    dsimp only at hrow
    simp only [clean_up_output, List.mem_filter, decide_not, Bool.not_eq_eq_eq_not,
      Bool.not_true, decide_eq_false_iff_not] at hrow
    exact hrow.2
  · rfl

/-- C5 (witness): a single-URL run whose page extracts successfully; the
reconciled sink rows all have non-empty text and the reported count matches
the sink size. -/
theorem c5_witness :
    (["http://a.example/"] : List String) ≠ [] ∧
    ∃ out, mainRun okEnv 100 0 0 ["http://a.example/"] = Except.ok out ∧
      (∀ row ∈ out.cleanSink, row.text ≠ "") ∧
      out.summary.successfulCount = out.cleanSink.length :=
  ⟨by simp, c5_reconciliation_and_count okEnv 100 0 0 ["http://a.example/"] (by simp)⟩
